import Mathlib

/-!
Verification of the sticky-note backend (`src/src-tauri/src/lib.rs`).

The backend has two parts:

* four persistence commands (`save_notes`, `load_notes`, `save_tasks`,
  `load_tasks`) that store two JSON documents under the per-user
  app-data directory;
* a global-shortcut handler that toggles the main window's visibility
  on CmdOrCtrl+M and exits the process on CmdOrCtrl+Q.

The embedding models the file system as an explicit state (the set of
existing directories plus an association list from file paths to
contents) and the host platform (Tauri path resolution, `std::fs`
primitives, `serde_json`) as an environment of fallible capabilities,
so every error path of the Rust code is represented.  The commands are
translated clause by clause from the Rust source; the shortcut handler
is translated into a pure function from the dispatch environment to the
list of window/process effects it performs.
-/

namespace StickyNote

/-- A JSON value, modelling `serde_json::Value` as far as the backend
needs it (the backend never inspects the value; it only serializes it). -/
inductive Json where
  | null
  | bool (b : Bool)
  | num (n : Int)
  | str (s : String)
  | arr (elems : List Json)
  | obj (fields : List (String × Json))

mutual

/-- Compact serialization of a JSON value, modelling
`serde_json::to_string` on `serde_json::Value` (string escaping is not
needed by any claim and is left out of the model). -/
def Json.serialize : Json → String
  | .null => "null"
  | .bool true => "true"
  | .bool false => "false"
  | .num n => toString n
  | .str s => "\"" ++ s ++ "\""
  | .arr elems => "[" ++ Json.serializeList elems ++ "]"
  | .obj fields => "\x7b" ++ Json.serializeFields fields ++ "\x7d"

/-- Comma-separated serialization of a list of JSON values. -/
def Json.serializeList : List Json → String
  | [] => ""
  | [x] => Json.serialize x
  | x :: y :: rest => Json.serialize x ++ "," ++ Json.serializeList (y :: rest)

/-- Comma-separated serialization of the fields of a JSON object. -/
def Json.serializeFields : List (String × Json) → String
  | [] => ""
  | [f] => "\"" ++ f.1 ++ "\":" ++ Json.serialize f.2
  | f :: g :: rest =>
      "\"" ++ f.1 ++ "\":" ++ Json.serialize f.2 ++ "," ++
        Json.serializeFields (g :: rest)

end

/-- `struct TasksPayload { tasks: serde_json::Value }` — the single-field
envelope received by `save_tasks`. -/
structure TasksPayload where
  tasks : Json

/-- The file-system state visible to the backend: which directories
exist and which files exist with which contents. -/
structure FsState where
  dirs : List String
  files : List (String × String)

/-- Contents of the file at `path`, if it exists. -/
def FsState.lookupFile (st : FsState) (path : String) : Option String :=
  (st.files.find? (fun f => f.1 == path)).map (fun f => f.2)

/-- `Path::exists` for a file path. -/
def FsState.fileExists (st : FsState) (path : String) : Bool :=
  (st.lookupFile path).isSome

/-- The file system with no directories and no files. -/
def emptyFs : FsState := { dirs := [], files := [] }

/-- The host environment a command invocation runs against.  Each field
is the outcome of one external capability the Rust code calls:
`app_handle.path().app_data_dir()`, `fs::create_dir_all`, `fs::write`,
`fs::read_to_string` (beyond file existence, which the `FsState`
decides), and `serde_json::to_string`.  Modelling them as data lets a
single definition cover both the success path and every fault the code
handles. -/
structure Host where
  appDataDir : Except String String
  createDirRes : Except String Unit
  writeRes : Except String Unit
  readRes : Except String Unit
  serde : Json → Except String String

/-- `PathBuf::join` with a single file-name component. -/
def pathJoin (dir name : String) : String := dir ++ "/" ++ name

/-- Every ancestor path segment of `path` (the path itself included),
i.e. the set of directories `fs::create_dir_all path` guarantees to
exist on success. -/
def pathAncestors (path : String) : List String :=
  let parts := path.splitOn "/"
  (List.range parts.length).map (fun i =>
    String.intercalate "/" (parts.take (i + 1)))

/-- `fs::create_dir_all`: on success all ancestor segments of `dir`
exist afterwards; on failure the state is unchanged. -/
def createDirAll (host : Host) (st : FsState) (dir : String) :
    Except String Unit × FsState :=
  match host.createDirRes with
  | .error e => (.error e, st)
  | .ok _ => (.ok (), { st with dirs := pathAncestors dir ++ st.dirs })

/-- `fs::write`: on success the file holds exactly the given contents,
replacing any previous entry for the same path; on failure the state is
unchanged. -/
def fsWrite (host : Host) (st : FsState) (path contents : String) :
    Except String Unit × FsState :=
  match host.writeRes with
  | .error e => (.error e, st)
  | .ok _ =>
      (.ok (), { st with
        files := (path, contents) :: st.files.filter (fun f => f.1 != path) })

/-- `fs::read_to_string`: fails when the host injects a read fault or
the file does not exist; otherwise returns the contents. -/
def fsReadToString (host : Host) (st : FsState) (path : String) :
    Except String String :=
  match host.readRes with
  | .error e => .error e
  | .ok _ =>
      match st.lookupFile path with
      | some c => .ok c
      | none => .error "No such file or directory"

/-- `save_notes` (lib.rs lines 16–30): resolve the app-data directory,
create it (all missing segments), then write the given text to
`notes.json`, mapping each failure to its descriptive message. -/
def save_notes (host : Host) (st : FsState) (notes : String) :
    Except String Unit × FsState :=
  match host.appDataDir with
  | .error e => (.error ("Failed to get app data directory: " ++ e), st)
  | .ok appDir =>
      match createDirAll host st appDir with
      | (.error e, st1) => (.error ("Failed to create app directory: " ++ e), st1)
      | (.ok _, st1) =>
          let notesFile := pathJoin appDir "notes.json"
          match fsWrite host st1 notesFile notes with
          | (.error e, st2) => (.error ("Failed to save notes: " ++ e), st2)
          | (.ok _, st2) => (.ok (), st2)

/-- `load_notes` (lib.rs lines 32–46): resolve the app-data directory;
if `notes.json` exists, read it (reporting a read failure), otherwise
return the literal `"[]"`. -/
def load_notes (host : Host) (st : FsState) : Except String String :=
  match host.appDataDir with
  | .error e => .error ("Failed to get app data directory: " ++ e)
  | .ok appDir =>
      let notesFile := pathJoin appDir "notes.json"
      if st.fileExists notesFile then
        match fsReadToString host st notesFile with
        | .error e => .error ("Failed to load notes: " ++ e)
        | .ok c => .ok c
      else
        .ok "[]"

/-- `save_tasks` (lib.rs lines 48–64): resolve the app-data directory,
create it, serialize `payload.tasks` (the envelope is stripped: only the
`tasks` field is encoded), then write the encoding to `tasks.json`. -/
def save_tasks (host : Host) (st : FsState) (payload : TasksPayload) :
    Except String Unit × FsState :=
  match host.appDataDir with
  | .error e => (.error ("Failed to get app data directory: " ++ e), st)
  | .ok appDir =>
      match createDirAll host st appDir with
      | (.error e, st1) => (.error ("Failed to create app directory: " ++ e), st1)
      | (.ok _, st1) =>
          let tasksFile := pathJoin appDir "tasks.json"
          match host.serde payload.tasks with
          | .error e => (.error ("Failed to serialize tasks: " ++ e), st1)
          | .ok tasksJson =>
              match fsWrite host st1 tasksFile tasksJson with
              | (.error e, st2) => (.error ("Failed to save tasks: " ++ e), st2)
              | (.ok _, st2) => (.ok (), st2)

/-- `load_tasks` (lib.rs lines 66–80): like `load_notes` but for
`tasks.json`. -/
def load_tasks (host : Host) (st : FsState) : Except String String :=
  match host.appDataDir with
  | .error e => .error ("Failed to get app data directory: " ++ e)
  | .ok appDir =>
      let tasksFile := pathJoin appDir "tasks.json"
      if st.fileExists tasksFile then
        match fsReadToString host st tasksFile with
        | .error e => .error ("Failed to load tasks: " ++ e)
        | .ok c => .ok c
      else
        .ok "[]"

/-- A host on which every capability succeeds, the app-data directory
resolving to `"appdata"` and serialization following `Json.serialize`. -/
def okHost : Host :=
  { appDataDir := .ok "appdata"
    createDirRes := .ok ()
    writeRes := .ok ()
    readRes := .ok ()
    serde := fun j => .ok j.serialize }

/-- A host identical to `okHost` except that serialization always
fails. -/
def badSerdeHost : Host :=
  { okHost with serde := fun _ => .error "boom" }

/-- A sample file system that already holds a notes file and a tasks
file. -/
def sampleFs : FsState :=
  { dirs := ["appdata"]
    files := [("appdata/notes.json", "[1]"), ("appdata/tasks.json", "[2]")] }

/-! ### The global-shortcut dispatcher (lib.rs lines 82–130) -/

/-- The key codes the handler distinguishes
(`tauri_plugin_global_shortcut::Code`). -/
inductive Code where
  | keyM
  | keyQ
  | otherKey (name : String)
deriving DecidableEq

/-- Modifier flags (`tauri_plugin_global_shortcut::Modifiers`). -/
structure Modifiers where
  control : Bool
  meta : Bool
  alt : Bool
  shift : Bool
deriving DecidableEq

/-- `Modifiers::CONTROL`. -/
def Modifiers.CONTROL : Modifiers := ⟨true, false, false, false⟩

/-- `Modifiers::META`. -/
def Modifiers.META : Modifiers := ⟨false, true, false, false⟩

/-- A registered shortcut: modifier flags plus a key code. -/
structure Shortcut where
  mods : Modifiers
  key : Code
deriving DecidableEq

/-- `Shortcut::matches`: exact equality of the modifier flags and the
key code. -/
def Shortcut.matches (s : Shortcut) (mods : Modifiers) (key : Code) : Bool :=
  s.mods == mods && s.key == key

/-- `ShortcutState`. -/
inductive ShortcutState where
  | pressed
  | released
deriving DecidableEq

/-- The window/process operations the handler can perform.  `hide`,
`showWin` and `setFocus` stand for `window.hide()`, `window.show()` and
`window.set_focus()` (whose own errors the code discards with `let _`);
`exit c` stands for `app.exit(c)`. -/
inductive Effect where
  | hide
  | showWin
  | setFocus
  | exit (code : Int)
deriving DecidableEq

/-- The dispatch environment of one shortcut event:
`get_webview_window("main")` may find no window (`none`), and when it
finds one, `window.is_visible()` either reports the visibility or fails
(`Except.error`). -/
structure AppEnv where
  mainWindow : Option (Except String Bool)

/-- The shortcut handler closure (lib.rs lines 95–120), as the list of
effects it performs for one event, in order. -/
def shortcutHandler (env : AppEnv) (shortcut : Shortcut) (state : ShortcutState) :
    List Effect :=
  if state == .pressed then
    if shortcut.matches Modifiers.CONTROL .keyM ||
        shortcut.matches Modifiers.META .keyM then
      match env.mainWindow with
      | some (.ok true) => [.hide]
      | some (.ok false) => [.showWin, .setFocus]
      | some (.error _) => [.showWin, .setFocus]
      | none => []
    else if shortcut.matches Modifiers.CONTROL .keyQ ||
        shortcut.matches Modifiers.META .keyQ then
      [.exit 0]
    else
      []
  else
    []

/-- The Control-based toggle combination. -/
def ctrlM : Shortcut := ⟨Modifiers.CONTROL, .keyM⟩

/-- The Meta-based toggle combination. -/
def metaM : Shortcut := ⟨Modifiers.META, .keyM⟩

/-- The Control-based quit combination. -/
def ctrlQ : Shortcut := ⟨Modifiers.CONTROL, .keyQ⟩

/-- The Meta-based quit combination. -/
def metaQ : Shortcut := ⟨Modifiers.META, .keyQ⟩

/-- Observable window state, for reading the effect lists back as a
state machine. -/
structure WindowState where
  visible : Bool
  focused : Bool
deriving DecidableEq

/-- How one effect changes the window state (`exit` does not change it). -/
def applyEffect (w : WindowState) : Effect → WindowState
  | .hide => { w with visible := false }
  | .showWin => { w with visible := true }
  | .setFocus => { w with focused := true }
  | .exit _ => w

/-- Run a list of effects over a window state, in order. -/
def applyEffects (w : WindowState) (effects : List Effect) : WindowState :=
  effects.foldl applyEffect w

/-! ### Theorems -/

/-- C1: each save operation first ensures the app-data directory exists
(creating all missing path segments), then writes the text to the
target file fully replacing any existing contents, and it fails with an
I/O error reason exactly when directory resolution, directory creation,
or the file write fails (for `save_tasks`, once serialization has
succeeded); each failing step produces its own descriptive I/O
message. -/
theorem save_contract (host : Host) (st : FsState) (notes : String)
    (payload : TasksPayload) :
    ((save_notes host st notes).1 = .ok () ↔
      (∃ d, host.appDataDir = .ok d) ∧ host.createDirRes = .ok () ∧
        host.writeRes = .ok ()) ∧
    (∀ d, host.appDataDir = .ok d → (save_notes host st notes).1 = .ok () →
      (∀ p ∈ pathAncestors d, p ∈ (save_notes host st notes).2.dirs) ∧
      (save_notes host st notes).2.lookupFile (pathJoin d "notes.json") =
        some notes) ∧
    (∀ e, host.appDataDir = .error e →
      (save_notes host st notes).1 =
        .error ("Failed to get app data directory: " ++ e)) ∧
    (∀ d e, host.appDataDir = .ok d → host.createDirRes = .error e →
      (save_notes host st notes).1 =
        .error ("Failed to create app directory: " ++ e)) ∧
    (∀ d e, host.appDataDir = .ok d → host.createDirRes = .ok () →
      host.writeRes = .error e →
      (save_notes host st notes).1 = .error ("Failed to save notes: " ++ e)) ∧
    (∀ s, host.serde payload.tasks = .ok s →
      ((save_tasks host st payload).1 = .ok () ↔
        (∃ d, host.appDataDir = .ok d) ∧ host.createDirRes = .ok () ∧
          host.writeRes = .ok ()) ∧
      (∀ d, host.appDataDir = .ok d → (save_tasks host st payload).1 = .ok () →
        (∀ p ∈ pathAncestors d, p ∈ (save_tasks host st payload).2.dirs) ∧
        (save_tasks host st payload).2.lookupFile (pathJoin d "tasks.json") =
          some s) ∧
      (∀ e, host.appDataDir = .error e →
        (save_tasks host st payload).1 =
          .error ("Failed to get app data directory: " ++ e)) ∧
      (∀ d e, host.appDataDir = .ok d → host.createDirRes = .error e →
        (save_tasks host st payload).1 =
          .error ("Failed to create app directory: " ++ e)) ∧
      (∀ d e, host.appDataDir = .ok d → host.createDirRes = .ok () →
        host.writeRes = .error e →
        (save_tasks host st payload).1 =
          .error ("Failed to save tasks: " ++ e))) := by
  obtain ⟨ad, cd, wr, rr, sj⟩ := host
  cases ad <;> cases cd <;> cases wr <;>
    simp_all [save_notes, save_tasks, createDirAll, fsWrite,
      FsState.lookupFile, pathJoin, List.find?]

/-- Witness for C1 at a concrete host and input. -/
theorem save_contract_witness :
    (save_notes okHost emptyFs "hi").1 = .ok () ∧
    (save_notes okHost emptyFs "hi").2.lookupFile "appdata/notes.json" =
      some "hi" := by
  have h := save_contract okHost emptyFs "hi" ⟨Json.null⟩
  have hok : (save_notes okHost emptyFs "hi").1 = .ok () :=
    h.1.mpr ⟨⟨"appdata", rfl⟩, rfl, rfl⟩
  exact ⟨hok, (h.2.1 "appdata" rfl hok).2⟩

/-- C2: when the corresponding file does not exist, each load operation
succeeds with the literal text `"[]"`; absence of the file is never an
error. -/
theorem load_missing_file_returns_empty (host : Host) (st : FsState)
    (d : String) (had : host.appDataDir = .ok d) :
    (st.fileExists (pathJoin d "notes.json") = false →
      load_notes host st = .ok "[]") ∧
    (st.fileExists (pathJoin d "tasks.json") = false →
      load_tasks host st = .ok "[]") := by
  constructor <;> intro hex <;>
    simp [load_notes, load_tasks, had, hex]

/-- Witness for C2: loading from the empty file system. -/
theorem load_missing_file_returns_empty_witness :
    load_notes okHost emptyFs = .ok "[]" ∧
    load_tasks okHost emptyFs = .ok "[]" := by
  have h := load_missing_file_returns_empty okHost emptyFs "appdata" rfl
  exact ⟨h.1 rfl, h.2 rfl⟩

/-- C3: a successful `save_notes s` followed by `load_notes` (with the
read not faulting) returns exactly `s`: the file contents are written
and read back verbatim. -/
theorem save_load_roundtrip (host : Host) (st : FsState) (s : String)
    (hsave : (save_notes host st s).1 = .ok ())
    (hread : host.readRes = .ok ()) :
    load_notes host (save_notes host st s).2 = .ok s := by
  obtain ⟨ad, cd, wr, rr, sj⟩ := host
  cases ad <;> cases cd <;> cases wr <;>
    simp_all [save_notes, load_notes, createDirAll, fsWrite, fsReadToString,
      FsState.fileExists, FsState.lookupFile, pathJoin, List.find?]

/-- Witness for C3 at a concrete input. -/
theorem save_load_roundtrip_witness :
    load_notes okHost (save_notes okHost emptyFs "hello").2 = .ok "hello" :=
  save_load_roundtrip okHost emptyFs "hello" rfl rfl

/-- C4: `save_tasks` persists the serialization of the payload's `tasks`
field alone (the envelope is stripped before persistence), so a
subsequent `load_tasks` returns that serialization; concretely,
`save_tasks ⟨[1,2,3]⟩` then `load_tasks` gives `"[1,2,3]"`. -/
theorem save_tasks_strips_envelope (host : Host) (st : FsState)
    (payload : TasksPayload) (s : String)
    (hser : host.serde payload.tasks = .ok s)
    (hsave : (save_tasks host st payload).1 = .ok ())
    (hread : host.readRes = .ok ()) :
    (∀ d, host.appDataDir = .ok d →
      (save_tasks host st payload).2.lookupFile (pathJoin d "tasks.json") =
        some s) ∧
    load_tasks host (save_tasks host st payload).2 = .ok s := by
  obtain ⟨ad, cd, wr, rr, sj⟩ := host
  cases ad <;> cases cd <;> cases wr <;>
    simp_all [save_tasks, load_tasks, createDirAll, fsWrite, fsReadToString,
      FsState.fileExists, FsState.lookupFile, pathJoin, List.find?]

/-- Witness for C4: the spec's own example `[1, 2, 3]`. -/
theorem save_tasks_strips_envelope_witness :
    load_tasks okHost
      (save_tasks okHost emptyFs ⟨Json.arr [.num 1, .num 2, .num 3]⟩).2 =
      .ok "[1,2,3]" := by
  have h := save_tasks_strips_envelope okHost emptyFs
    ⟨Json.arr [.num 1, .num 2, .num 3]⟩ "[1,2,3]" rfl rfl rfl
  exact h.2

/-- C5: each load operation returns the file's contents verbatim when
the file exists (and the read does not fault); it returns an error only
when the directory cannot be resolved or the file exists but cannot be
read; and in every other case it succeeds. -/
theorem load_contract (host : Host) (st : FsState) :
    (∀ d c, host.appDataDir = .ok d → host.readRes = .ok () →
      st.lookupFile (pathJoin d "notes.json") = some c →
      load_notes host st = .ok c) ∧
    (∀ e, load_notes host st = .error e →
      (∃ e0, host.appDataDir = .error e0) ∨
      (∃ d, host.appDataDir = .ok d ∧
        st.fileExists (pathJoin d "notes.json") = true ∧
        ∃ e1, host.readRes = .error e1)) ∧
    (∀ d, host.appDataDir = .ok d →
      (st.fileExists (pathJoin d "notes.json") = false ∨
        host.readRes = .ok ()) →
      ∃ c, load_notes host st = .ok c) ∧
    (∀ d c, host.appDataDir = .ok d → host.readRes = .ok () →
      st.lookupFile (pathJoin d "tasks.json") = some c →
      load_tasks host st = .ok c) ∧
    (∀ e, load_tasks host st = .error e →
      (∃ e0, host.appDataDir = .error e0) ∨
      (∃ d, host.appDataDir = .ok d ∧
        st.fileExists (pathJoin d "tasks.json") = true ∧
        ∃ e1, host.readRes = .error e1)) ∧
    (∀ d, host.appDataDir = .ok d →
      (st.fileExists (pathJoin d "tasks.json") = false ∨
        host.readRes = .ok ()) →
      ∃ c, load_tasks host st = .ok c) := by
  obtain ⟨ad, cd, wr, rr, sj⟩ := host
  cases ad with
  | error e0 => cases rr <;> simp_all [load_notes, load_tasks]
  | ok d =>
    rcases hn : st.lookupFile (pathJoin d "notes.json") with _ | cn <;>
      rcases ht : st.lookupFile (pathJoin d "tasks.json") with _ | ct <;>
      cases rr <;>
      simp_all [load_notes, load_tasks, fsReadToString, FsState.fileExists]

/-- Witness for C5: verbatim reads from a populated file system. -/
theorem load_contract_witness :
    load_notes okHost sampleFs = .ok "[1]" ∧
    load_tasks okHost sampleFs = .ok "[2]" := by
  have h := load_contract okHost sampleFs
  exact ⟨h.1 "appdata" "[1]" rfl rfl rfl,
    h.2.2.2.1 "appdata" "[2]" rfl rfl rfl⟩

/-- C6: `save_tasks` serializes the payload's `tasks` value before
writing; when the encoding fails it returns a serialization error
reason and nothing is written to the tasks file (the file map is
unchanged). -/
theorem save_tasks_serialize_error (host : Host) (st : FsState)
    (payload : TasksPayload) (d e : String)
    (had : host.appDataDir = .ok d) (hcd : host.createDirRes = .ok ())
    (hser : host.serde payload.tasks = .error e) :
    (save_tasks host st payload).1 =
      .error ("Failed to serialize tasks: " ++ e) ∧
    (save_tasks host st payload).2.files = st.files := by
  simp [save_tasks, createDirAll, had, hcd, hser]

/-- Witness for C6: a host whose serializer always fails. -/
theorem save_tasks_serialize_error_witness :
    (save_tasks badSerdeHost emptyFs ⟨Json.null⟩).1 =
      .error ("Failed to serialize tasks: " ++ "boom") ∧
    (save_tasks badSerdeHost emptyFs ⟨Json.null⟩).2.files = emptyFs.files :=
  save_tasks_serialize_error badSerdeHost emptyFs ⟨Json.null⟩ "appdata" "boom"
    rfl rfl rfl

/-- C7: on a toggle press, a visible window is hidden; a hidden window
is shown and focused; and when the visibility query fails the handler
treats the window as hidden, showing and focusing it.  Read back as a
state machine: visible goes to hidden, hidden goes to visible and
focused. -/
theorem toggle_semantics (env : AppEnv) (sc : Shortcut) (w : WindowState)
    (hsc : sc = ctrlM ∨ sc = metaM) :
    (env.mainWindow = some (.ok true) →
      shortcutHandler env sc .pressed = [.hide]) ∧
    (env.mainWindow = some (.ok false) →
      shortcutHandler env sc .pressed = [.showWin, .setFocus]) ∧
    (∀ e, env.mainWindow = some (.error e) →
      shortcutHandler env sc .pressed = [.showWin, .setFocus]) ∧
    (env.mainWindow = some (.ok w.visible) →
      (w.visible = true →
        (applyEffects w (shortcutHandler env sc .pressed)).visible = false) ∧
      (w.visible = false →
        (applyEffects w (shortcutHandler env sc .pressed)).visible = true ∧
        (applyEffects w (shortcutHandler env sc .pressed)).focused = true)) := by
  rcases hsc with rfl | rfl <;>
    refine ⟨fun h => ?_, fun h => ?_, fun e h => ?_,
      fun h => ⟨fun hv => ?_, fun hv => ?_⟩⟩ <;>
    simp_all [shortcutHandler, Shortcut.matches, ctrlM, metaM,
      Modifiers.CONTROL, Modifiers.META, applyEffects, applyEffect]

/-- Witness for C7: both toggle branches at concrete environments. -/
theorem toggle_semantics_witness :
    shortcutHandler ⟨some (.ok true)⟩ ctrlM .pressed = [.hide] ∧
    shortcutHandler ⟨some (.ok false)⟩ metaM .pressed =
      [.showWin, .setFocus] := by
  have h1 := toggle_semantics ⟨some (.ok true)⟩ ctrlM ⟨true, false⟩
    (Or.inl rfl)
  have h2 := toggle_semantics ⟨some (.ok false)⟩ metaM ⟨false, false⟩
    (Or.inr rfl)
  exact ⟨h1.1 rfl, h2.2.1 rfl⟩

/-- C8: a quit press terminates the process immediately with exit code
0 — the handler's only effect is `app.exit(0)`, with no confirmation
step. -/
theorem quit_semantics (env : AppEnv) (sc : Shortcut)
    (hsc : sc = ctrlQ ∨ sc = metaQ) :
    shortcutHandler env sc .pressed = [.exit 0] := by
  rcases hsc with rfl | rfl <;> rfl

/-- Witness for C8 at a concrete environment. -/
theorem quit_semantics_witness :
    shortcutHandler ⟨none⟩ ctrlQ .pressed = [.exit 0] :=
  quit_semantics ⟨none⟩ ctrlQ (Or.inl rfl)

/-- C9: for each logical hotkey, the Control-based and the
Meta/Command-based combination dispatch to the same action, and both
are accepted: the toggle combinations act whenever a window is found,
and the quit combinations exit with code 0. -/
theorem modifier_equivalence (env : AppEnv) (state : ShortcutState) :
    shortcutHandler env ctrlM state = shortcutHandler env metaM state ∧
    shortcutHandler env ctrlQ state = shortcutHandler env metaQ state ∧
    (∀ w, env.mainWindow = some w →
      shortcutHandler env ctrlM .pressed ≠ []) ∧
    shortcutHandler env ctrlQ .pressed = [.exit 0] := by
  refine ⟨?_, ?_, ?_, rfl⟩
  · cases state <;> rfl
  · cases state <;> rfl
  · intro w hw
    rcases w with e | b
    · simp [shortcutHandler, hw, Shortcut.matches, ctrlM,
        Modifiers.CONTROL, Modifiers.META]
    · cases b <;>
        simp [shortcutHandler, hw, Shortcut.matches, ctrlM,
          Modifiers.CONTROL, Modifiers.META]

/-- Witness for C9 at a concrete environment. -/
theorem modifier_equivalence_witness :
    shortcutHandler ⟨some (.ok true)⟩ ctrlM .pressed =
      shortcutHandler ⟨some (.ok true)⟩ metaM .pressed ∧
    shortcutHandler ⟨some (.ok true)⟩ ctrlM .pressed ≠ [] := by
  have h := modifier_equivalence ⟨some (.ok true)⟩ .pressed
  exact ⟨h.1, h.2.2.1 (.ok true) rfl⟩

/-- C10: when the window lookup finds no main window, a toggle press is
a silent no-op: the handler performs no effect at all, and any window
state is left unchanged. -/
theorem toggle_no_window_noop (env : AppEnv) (sc : Shortcut)
    (state : ShortcutState) (hwin : env.mainWindow = none)
    (hsc : sc = ctrlM ∨ sc = metaM) :
    shortcutHandler env sc state = [] ∧
    ∀ w, applyEffects w (shortcutHandler env sc state) = w := by
  rcases env with ⟨mw⟩
  simp only [AppEnv.mainWindow] at hwin
  subst hwin
  have h : shortcutHandler ⟨none⟩ sc state = [] := by
    rcases hsc with rfl | rfl <;> cases state <;> rfl
  exact ⟨h, fun w => by rw [h]; rfl⟩

/-- Witness for C10 at a concrete event. -/
theorem toggle_no_window_noop_witness :
    shortcutHandler ⟨none⟩ ctrlM .pressed = [] :=
  (toggle_no_window_noop ⟨none⟩ ctrlM .pressed rfl (Or.inl rfl)).1

end StickyNote
